import Mathlib

/-!
Verification development for the ResistenceSupportZone repository.

The Python source is shallowly embedded: Python floats appearing in candle
validation are modelled by an inductive type distinguishing finite rationals
from the non-finite IEEE values; all other numeric fields are modelled as
rationals.  Wall-clock timestamps are modelled as rationals supplied by the
caller.  Two library calls whose results are irrational are abstracted as
function parameters and documented at their use sites: the sample standard
deviation used by Zone.update_touch, and the one-sample t-test p-value used
by ZoneDetector._statistical_validation.  The decay factor (an exponential
of the zone age) and the recency factor, both derived on read from the wall
clock, are passed as read-time inputs to Zone.quality_score.  Timeframe
labels, strings in the source, are modelled by an abstract label type.
-/

namespace RSZ

/-- Python float values as seen by candle validation: a finite rational or
one of the non-finite IEEE values. -/
inductive PFloat where
  | finite (q : ℚ)
  | nan
  | pinf
  | ninf
  deriving DecidableEq

/-- The finite value carried by a Python float, if any. -/
def PFloat.val : PFloat → Option ℚ
  | .finite q => some q
  | _ => none

/-- Timeframe labels (strings such as 1, 5, 60 in the source), modelled
abstractly. -/
abbrev TF := ℕ

/-- models.py ZoneType. -/
inductive ZoneType where
  | support
  | resistance
  deriving DecidableEq

/-- models.py StatisticalMetrics.  The created and last_touch datetimes are
modelled as rational timestamps. -/
structure StatisticalMetrics where
  p_value : ℚ := 1
  confidence : ℚ := 0
  z_score : ℚ := 0
  touches_std : ℚ := 0
  persistence_score : ℚ := 0
  created : ℚ := 0
  last_touch : ℚ := 0
  deriving DecidableEq

/-- models.py Zone.  confirmed_tf is a Python dict from timeframe to bool,
modelled as an association list. -/
structure Zone where
  zone_type : ZoneType
  center : ℚ
  zone_low : ℚ
  zone_high : ℚ
  touches : ℕ := 0
  touch_prices : List ℚ := []
  touch_times : List ℚ := []
  stats : StatisticalMetrics := {}
  confirmed_tf : List (TF × Bool) := []
  orderbook_strength : Option ℚ := none
  volume_strength : Option ℚ := none
  trade_flow_strength : Option ℚ := none
  successful_rejections : ℕ := 0
  failed_breakouts : ℕ := 0
  deriving DecidableEq

/-- Python two-argument min, written out so that concrete instances reduce. -/
def pymin (a b : ℚ) : ℚ := if a ≤ b then a else b

/-- Python two-argument max, written out so that concrete instances reduce. -/
def pymax (a b : ℚ) : ℚ := if b ≤ a then a else b

/-- Python abs, written out so that concrete instances reduce. -/
def pyabs (a : ℚ) : ℚ := if a < 0 then -a else a

/-- Arithmetic mean of a list (np.mean); call sites only use it on nonempty
lists. -/
def listMean (l : List ℚ) : ℚ := l.sum / l.length

/-- models.py Zone.update_touch.  The sample standard deviation np.std is
irrational in general, so it is abstracted as the parameter std; the mean in
the z-score is computed exactly.  Mirrors the source: append price and time,
increment touches, refresh last_touch, and with at least 3 touch prices
recompute touches_std over the last 20 of them, and with more than 5 also
the z-score with the 0.001 epsilon floor on the standard deviation. -/
def Zone.update_touch (std : List ℚ → ℚ) (z : Zone) (price time : ℚ) : Zone :=
  let tps := z.touch_prices ++ [price]
  let tts := z.touch_times ++ [time]
  let stats0 := { z.stats with last_touch := time }
  let stats1 :=
    if 3 ≤ tps.length then
      let arr := tps.drop (tps.length - 20)
      let s1 := { stats0 with touches_std := std arr }
      if 5 < tps.length then
        { s1 with z_score := pyabs (price - listMean arr) / pymax (std arr) (1/1000) }
      else s1
    else stats0
  { z with touch_prices := tps, touch_times := tts,
           touches := z.touches + 1, stats := stats1 }

/-- Number of confirmed timeframes: sum of the boolean dict values. -/
def confirmedCount (tfs : List (TF × Bool)) : ℕ := (tfs.filter (·.2)).length

/-- Python any over the boolean dict values. -/
def anyConfirmed (tfs : List (TF × Bool)) : Bool := tfs.any (·.2)

/-- models.py Zone.quality_score.  The recency factor and the decay factor
are derived on read from the wall clock (the decay is an exponential, hence
irrational), so both are passed as read-time inputs.  A stored strength of
0.0 is falsy in Python and contributes nothing, exactly as an unset field;
the Option match with the zero test mirrors that truthiness. -/
def Zone.quality_score (z : Zone) (recency decay : ℚ) : ℚ :=
  let s1 : ℚ := pymin ((z.touches : ℚ) * 8) 20
  let s2 : ℚ :=
    if (19/20 : ℚ) < z.stats.confidence then 20
    else if (9/10 : ℚ) < z.stats.confidence then 10 else 0
  let tf_multiplier : ℚ := (confirmedCount z.confirmed_tf : ℚ) / 3
  let s3 : ℚ := tf_multiplier * 15
  let s4 : ℚ :=
    match z.orderbook_strength with
    | some s => if s ≠ 0 then pymin (s * 10) 10 else 0
    | none => 0
  let s5 : ℚ :=
    match z.volume_strength with
    | some s => if s ≠ 0 then pymin (s * 10) 10 else 0
    | none => 0
  let s6 : ℚ := recency * 5
  let s7 : ℚ := decay * 5
  let s8 : ℚ :=
    if 0 < z.touches then
      ((z.successful_rejections : ℚ) / (z.touches : ℚ)) * 10
    else 0
  pymin 100 (s1 + s2 + s3 + s4 + s5 + s6 + s7 + s8)

/-- Candle dictionaries handed to MarketState.add_candle: numeric fields are
raw Python floats; the timestamp key is added by add_candle itself. -/
structure RawCandle where
  open_ : PFloat
  high : PFloat
  low : PFloat
  close : PFloat
  volume : PFloat
  timestamp : Option ℚ := none
  deriving DecidableEq

/-- Modelled from the spec: MarketState._validate_candle is called at
models.py line 110 but is not defined anywhere in the repository snapshot.
The spec says addCandle validates numeric finiteness and OHLC sanity, so a
candle is valid iff all five numeric fields are finite and the OHLC values
are consistent: low ≤ open ≤ high, low ≤ close ≤ high, low ≤ high, and a
nonnegative volume. -/
def validate_candle (c : RawCandle) : Bool :=
  match c.open_.val, c.high.val, c.low.val, c.close.val, c.volume.val with
  | some o, some h, some l, some cl, some v =>
      decide (l ≤ o ∧ o ≤ h ∧ l ≤ cl ∧ cl ≤ h ∧ l ≤ h ∧ 0 ≤ v)
  | _, _, _, _, _ => false

/-- A recent trade (multi_symbol_manager pushes these); side is modelled
abstractly as a label. -/
structure Trade where
  price : ℚ
  qty : ℚ
  side : ℕ
  ts : ℚ
  deriving DecidableEq

/-- Bids and asks as ordered (price, qty) lists; confirmations.py reads the
top levels. -/
structure OrderBook where
  bids : List (ℚ × ℚ)
  asks : List (ℚ × ℚ)
  deriving DecidableEq

/-- Append with the deque maxlen semantics: the oldest entries are evicted
once the capacity is exceeded. -/
def pushBounded (maxLen : ℕ) (l : List α) (a : α) : List α :=
  let l' := l ++ [a]
  if l'.length ≤ maxLen then l' else l'.drop (l'.length - maxLen)

/-- models.py MarketState: bounded candle window, order book, bounded trade
window and the active zone list. -/
structure MarketState where
  maxCandles : ℕ := 500
  candles : List RawCandle := []
  orderbook : Option OrderBook := none
  recent_trades : List Trade := []
  active_zones : List Zone := []

/-- models.py MarketState.add_candle: an invalid candle is dropped with a
logged warning and the state is unchanged; a valid candle gets the current
timestamp and is appended to the bounded window.  The timeframe argument is
only interpolated into the log message. -/
def MarketState.add_candle (s : MarketState) (c : RawCandle) (tf : TF) (now : ℚ) : MarketState :=
  if validate_candle c then
    { s with candles := pushBounded s.maxCandles s.candles { c with timestamp := some now } }
  else s

/-- Candles as read by the old detector pipeline (detectors, confirmations,
signals): finite numeric low, high, close, volume plus a timestamp. -/
structure OHLC where
  low : ℚ
  high : ℚ
  close : ℚ
  volume : ℚ
  ts : ℚ
  deriving DecidableEq

instance : Inhabited OHLC := ⟨⟨0, 0, 0, 0, 0⟩⟩

/-- Python min over a nonempty sequence. -/
def listMin : List ℚ → Option ℚ
  | [] => none
  | x :: xs => some (xs.foldl pymin x)

/-- Python max over a nonempty sequence. -/
def listMax : List ℚ → Option ℚ
  | [] => none
  | x :: xs => some (xs.foldl pymax x)

/-- The Zone literal built by ZoneDetector._add_or_update_zone when no
existing zone matches: centered at the pivot price with half-width
width × 0.01 relative, one recorded touch.  width stands for
config.ZONE_WIDTH_ATR_MULTIPLIER. -/
def mkZone (ztype : ZoneType) (price width ts : ℚ) : Zone :=
  { zone_type := ztype
    center := price
    zone_low := price * (1 - width * (1/100))
    zone_high := price * (1 + width * (1/100))
    touches := 1
    touch_prices := [price]
    touch_times := [ts] }

/-- detectors.py ZoneDetector._add_or_update_zone: scan the zone list in
order; the first same-type zone whose center is within the relative
tolerance of the incoming price (the difference is normalized by the
incoming price) accretes the touch; otherwise a new zone is appended. -/
def add_or_update_zone (std : List ℚ → ℚ) (width : ℚ) (zones : List Zone)
    (ztype : ZoneType) (price tol ts : ℚ) : List Zone :=
  match zones with
  | [] => [mkZone ztype price width ts]
  | z :: rest =>
      if z.zone_type = ztype ∧ pyabs (z.center - price) / price ≤ tol then
        z.update_touch std price ts :: rest
      else
        z :: add_or_update_zone std width rest ztype price tol ts

/-- One iteration of the pivot scan in detectors.py detect_zones: for an
interior index, compare the low and the high of candle i against the
extremes of the symmetric 7-candle window; the support check runs first and
the resistance check runs on its result, as in the source. -/
def pivot_step (std : List ℚ → ℚ) (tol width : ℚ) (candles : List OHLC)
    (zones : List Zone) (i : ℕ) : List Zone :=
  if 3 ≤ i ∧ i + 3 < candles.length then
    let window := (candles.drop (i - 3)).take 7
    let c := candles.getD i default
    let zones1 :=
      if listMin (window.map (·.low)) = some c.low then
        add_or_update_zone std width zones ZoneType.support c.low tol c.ts
      else zones
    if listMax (window.map (·.high)) = some c.high then
      add_or_update_zone std width zones1 ZoneType.resistance c.high tol c.ts
    else zones1
  else zones

/-- The pivot-scan loop of detect_zones, started from the empty zone list
the function creates. -/
def pivot_scan (std : List ℚ → ℚ) (tol width : ℚ) (candles : List OHLC) : List Zone :=
  (List.range candles.length).foldl (pivot_step std tol width candles) []

/-- The per-zone statistics update inside _statistical_validation: with at
least 3 touch prices, record the t-test p-value against the mean recent
close and its complement as confidence.  pval abstracts
scipy.stats.ttest_1samp, whose p-value is irrational in general. -/
def set_zone_stats (pval : List ℚ → ℚ → ℚ) (allMean : ℚ) (z : Zone) : Zone :=
  if 3 ≤ z.touch_prices.length then
    let p := pval z.touch_prices allMean
    { z with stats := { z.stats with p_value := p, confidence := 1 - p } }
  else z

/-- detectors.py ZoneDetector._statistical_validation: with no zones or
fewer than 20 candles the list passes through unchanged; otherwise each
zone's statistics are refreshed against the mean close of the last 100
candles and only zones with p-value below 0.1 are retained. -/
def statistical_validation (pval : List ℚ → ℚ → ℚ) (zones : List Zone)
    (candles : List OHLC) : List Zone :=
  if zones.isEmpty ∨ candles.length < 20 then zones
  else
    let all_prices := (candles.drop (candles.length - 100)).map (·.close)
    (zones.map (set_zone_stats pval (listMean all_prices))).filter
      (fun z => z.stats.p_value < 1/10)

/-- detectors.py ZoneDetector.detect_zones over the candle window of the
market state.  The old MarketState class holding the window is absent from
the repository snapshot, so per the spec the window is an ordered bounded
candle list, passed directly.  tol stands for config.ZONE_TOLERANCE_PCT,
width for config.ZONE_WIDTH_ATR_MULTIPLIER and min_touches for
config.ZONE_MIN_TOUCHES. -/
def detect_zones (std : List ℚ → ℚ) (pval : List ℚ → ℚ → ℚ)
    (tol width : ℚ) (min_touches : ℕ) (candles : List OHLC) : List Zone :=
  if candles.length < 7 then []
  else
    let zones := pivot_scan std tol width candles
    let zones := zones.filter (fun z => min_touches ≤ z.touches)
    statistical_validation pval zones candles

/-- confirmations.py ConfirmationSystem.confirm_with_orderbook, returning
the updated zone together with the computed strength.  A missing or empty
order book dict (the falsy / missing-keys guard) is modelled as none.  The
resting volume of the top 10 levels per side priced inside the zone band is
normalized against the mean size of the top 5 levels per side, the ratio is
clamped to 3 and scaled to [0,1]; the field is written only when the
strength exceeds 0.3. -/
def confirm_with_orderbook (z : Zone) (ob : Option OrderBook) : Zone × ℚ :=
  match ob with
  | none => (z, 0)
  | some ob =>
      let bids := ob.bids.take 10
      let asks := ob.asks.take 10
      let total_volume :=
        (((bids ++ asks).filter fun pq => z.zone_low ≤ pq.1 ∧ pq.1 ≤ z.zone_high).map
          (·.2)).sum
      let avg_volume : ℚ :=
        if 10 ≤ (bids ++ asks).length then
          ((bids.take 5 ++ asks.take 5).map (·.2)).sum / 10
        else 1
      let strength := pymin (total_volume / pymax avg_volume 1) 3 / 3
      if 3/10 < strength then ({ z with orderbook_strength := some strength }, strength)
      else (z, strength)

/-- confirmations.py ConfirmationSystem.confirm_with_volume, returning the
updated zone together with the computed strength.  Among the last 50 recent
candles, the mean volume of those whose low or high falls inside the zone
band is normalized by the mean volume of the last 20 candles (floored at 1),
the ratio is clamped to 2 and scaled to [0,1]; the field is written only
when the strength exceeds 0.3. -/
def confirm_with_volume (z : Zone) (recent_candles : List OHLC) : Zone × ℚ :=
  if recent_candles.length < 10 then (z, 0)
  else
    let touch_volumes :=
      (((recent_candles.drop (recent_candles.length - 50)).filter fun c =>
          (z.zone_low ≤ c.low ∧ c.low ≤ z.zone_high) ∨
          (z.zone_low ≤ c.high ∧ c.high ≤ z.zone_high)).map (·.volume))
    if touch_volumes.isEmpty then (z, 0)
    else
      let avg_volume := listMean ((recent_candles.drop (recent_candles.length - 20)).map (·.volume))
      let volume_rel := listMean touch_volumes / pymax avg_volume 1
      let strength := pymin volume_rel 2 / 2
      if 3/10 < strength then ({ z with volume_strength := some strength }, strength)
      else (z, strength)

/-- save_old_files/symbol_analyzer.py _analyze_timeframe lines 101 to 110:
when the order book is present the zone orderbook_strength field is assigned
the return value of confirm_with_orderbook, and when more than 10 candles
are buffered the volume_strength field is assigned the return value of
confirm_with_volume on the last 100 candles — in both cases the assignment
is unconditional, overwriting whatever the confirmation call itself left in
the field. -/
def analyzer_confirm_pass (z : Zone) (ob : Option OrderBook) (candles : List OHLC) : Zone :=
  let z1 :=
    match ob with
    | none => z
    | some o =>
        let r := confirm_with_orderbook z (some o)
        { r.1 with orderbook_strength := some r.2 }
  if 10 < candles.length then
    let r := confirm_with_volume z1 (candles.drop (candles.length - 100))
    { r.1 with volume_strength := some r.2 }
  else z1

/-- signals.py signal_type values. -/
inductive SignalKind where
  | breakout
  | rejection
  | false_breakout
  deriving DecidableEq

/-- signals.py TradingSignal. -/
structure TradingSignal where
  zone : Zone
  signal_type : SignalKind
  confidence : ℚ
  ts : ℚ := 0
  deriving DecidableEq

/-- signals.py TradingSignal.calculate_position_size.  account_risk stands
for config.ACCOUNT_RISK_PERCENT; recency and decay feed the quality score
read as in Zone.quality_score. -/
def TradingSignal.calculate_position_size (sig : TradingSignal)
    (account_risk recency decay : ℚ) : ℚ :=
  let base_size := account_risk
  let confidence_multiplier := sig.confidence * 2
  let quality_multiplier := sig.zone.quality_score recency decay / 100
  let tf_multiplier : ℚ := if anyConfirmed sig.zone.confirmed_tf then 3/2 else 1
  let final_size := base_size * confidence_multiplier * quality_multiplier * tf_multiplier
  pymin final_size (account_risk * 3)

/-- signals.py SignalGenerator._calculate_bounce_confidence.  The stored
strengths contribute through the same Python truthiness as in the quality
score: an unset field or a stored 0.0 contributes nothing. -/
def calculate_bounce_confidence (z : Zone) (recency decay : ℚ) : ℚ :=
  let c1 : ℚ := 1/2 +
    (match z.volume_strength with
     | some s => if s ≠ 0 then s * (2/10) else 0
     | none => 0)
  let c2 : ℚ := c1 +
    (match z.orderbook_strength with
     | some s => if s ≠ 0 then s * (15/100) else 0
     | none => 0)
  let c3 : ℚ := c2 + (if anyConfirmed z.confirmed_tf then 15/100 else 0)
  let c4 : ℚ := c3 + (z.quality_score recency decay / 100) * (1/10)
  pymin c4 1

/-- signals.py SignalGenerator._check_bounce.  The price argument of the
source is accepted but unused, as there.  The last three candles of the
window are inspected; a touch of the prior candle inside the band on the
zone side followed by a close moving away yields a rejection signal when the
computed confidence reaches min_confidence. -/
def check_bounce (min_confidence : ℚ) (z : Zone) (price : ℚ) (candles : List OHLC)
    (recency decay : ℚ) (now : ℚ) : Option TradingSignal :=
  let recent := candles.drop (candles.length - 3)
  if recent.length < 2 then none
  else
    let last_candle := recent.getLastD default
    let prev_candle := recent.dropLast.getLastD default
    match z.zone_type with
    | ZoneType.support =>
        let touched := decide (prev_candle.low ≤ z.zone_high) &&
          decide (z.zone_low ≤ prev_candle.low)
        let bounced := decide (prev_candle.close < last_candle.close)
        if touched && bounced then
          let confidence := calculate_bounce_confidence z recency decay
          if min_confidence ≤ confidence then
            some { zone := z, signal_type := SignalKind.rejection,
                   confidence := confidence, ts := now }
          else none
        else none
    | ZoneType.resistance =>
        let touched := decide (z.zone_low ≤ prev_candle.high) &&
          decide (prev_candle.high ≤ z.zone_high)
        let bounced := decide (last_candle.close < prev_candle.close)
        if touched && bounced then
          let confidence := calculate_bounce_confidence z recency decay
          if min_confidence ≤ confidence then
            some { zone := z, signal_type := SignalKind.rejection,
                   confidence := confidence, ts := now }
          else none
        else none

/-- The touch-and-bounce condition of _check_bounce on the side of the given
zone, read off the last three candles of the window exactly as the source
reads them. -/
def bounce_candidate (z : Zone) (candles : List OHLC) : Bool :=
  let recent := candles.drop (candles.length - 3)
  let last_candle := recent.getLastD default
  let prev_candle := recent.dropLast.getLastD default
  match z.zone_type with
  | ZoneType.support =>
      decide (prev_candle.low ≤ z.zone_high) && decide (z.zone_low ≤ prev_candle.low) &&
        decide (prev_candle.close < last_candle.close)
  | ZoneType.resistance =>
      decide (z.zone_low ≤ prev_candle.high) && decide (prev_candle.high ≤ z.zone_high) &&
        decide (last_candle.close < prev_candle.close)

/-- save_old_files/multi_symbol_manager.py: the ingestion queue is created
with maxsize 100000. -/
def QUEUE_CAPACITY : ℕ := 100000

/-- The ingestion queue state seen by the producer: buffered messages plus
the messages_dropped counter of the stats dict. -/
structure IngestQueue (α : Type) where
  queue : List α
  messages_dropped : ℕ

/-- The enqueue step of _redis_producer: put_nowait appends when the queue
holds fewer than QUEUE_CAPACITY messages; on a full queue the QueueFull
error is caught, the message is discarded and messages_dropped is
incremented by one.  The function is total: nothing escapes the producer
loop and the producer is never blocked. -/
def enqueue_put_nowait (s : IngestQueue α) (m : α) : IngestQueue α :=
  if s.queue.length < QUEUE_CAPACITY then
    { s with queue := s.queue ++ [m] }
  else
    { s with messages_dropped := s.messages_dropped + 1 }

/-! Concrete data used by witnesses and counterexamples. -/

/-- A candle whose open field is the non-finite value nan. -/
def badCandle : RawCandle :=
  { open_ := .nan, high := .finite 2, low := .finite 0, close := .finite 1,
    volume := .finite 3 }

/-- A finite, OHLC-consistent candle. -/
def goodCandle : RawCandle :=
  { open_ := .finite 1, high := .finite 2, low := .finite 0, close := .finite 1,
    volume := .finite 3 }

/-- Detector candles for concrete runs: constant close and volume, the low,
high and timestamp as given. -/
def mkOHLC (low high ts : ℚ) : OHLC :=
  { low := low, high := high, close := 150, volume := 1, ts := ts }

/-- A stream of 25 candles: strictly increasing highs (no resistance pivot
ever fires), lows rising with the index except for support pivots at
positions 3, 9, 15 and 21, all at price 100; timestamps equal the index. -/
def c2Stream : List OHLC :=
  (List.range 25).map fun i =>
    mkOHLC (if i = 3 ∨ i = 9 ∨ i = 15 ∨ i = 21 then 100 else 101 + i)
      (200 + (i : ℚ)) i

/-- The candle window after the first 19 candles of the stream arrived in a
window of capacity 19. -/
def c2Window1 : List OHLC := c2Stream.take 19

/-- The candle window after all 25 candles of the stream arrived in a window
of capacity 19: the first 6 candles have been evicted. -/
def c2Window2 : List OHLC := c2Stream.foldl (pushBounded 19) []

/-- A zone with three touches, one successful rejection and no other
contributions. -/
def c3Zone : Zone :=
  { zone_type := .support, center := 100, zone_low := 99, zone_high := 101,
    touches := 3, touch_prices := [100, 100, 100], touch_times := [1, 2, 3],
    successful_rejections := 1 }

/-- A support zone with band [99, 101] and no stored confirmations. -/
def c4Zone : Zone :=
  { zone_type := .support, center := 100, zone_low := 99, zone_high := 101 }

/-- An order book whose resting liquidity lies entirely outside the band of
c4Zone, so the computed strength is 0. -/
def c4Book : OrderBook := { bids := [(50, 5)], asks := [(200, 5)] }

/-- A zone whose quality score at recency 1 and decay 1 is exactly 80, with
no confirmed timeframe. -/
def c8Zone : Zone :=
  { zone_type := .support, center := 100, zone_low := 99, zone_high := 101,
    touches := 3, touch_prices := [100, 100, 100], touch_times := [0, 1, 2],
    stats := { confidence := 96/100 },
    orderbook_strength := some 1, volume_strength := some 1,
    successful_rejections := 3 }

/-- Seven candles with a single support pivot at the center candle. -/
def c9Candles : List OHLC :=
  [mkOHLC 104 200 0, mkOHLC 103 201 1, mkOHLC 102 202 2, mkOHLC 100 203 3,
   mkOHLC 106 204 4, mkOHLC 107 205 5, mkOHLC 108 206 6]

/-- Three candles whose middle candle dips into the band [99, 101] of
c4Zone and whose last close recovers above the middle close. -/
def c10Candles : List OHLC :=
  [{ low := 103, high := 104, close := 150, volume := 1, ts := 0 },
   { low := 100, high := 104, close := 149, volume := 1, ts := 1 },
   { low := 102, high := 104, close := 151, volume := 1, ts := 2 }]

/-! Helper lemmas. -/

theorem pymin_eq (a b : ℚ) : pymin a b = min a b := by
  simp [pymin, min_def]

theorem pymax_eq (a b : ℚ) : pymax a b = max a b := by
  unfold pymax
  rcases le_total a b with h | h
  · rcases eq_or_lt_of_le h with rfl | hlt
    · simp
    · rw [if_neg (not_le.2 hlt), max_eq_right h]
  · rw [if_pos h, max_eq_left h]

theorem pyabs_eq (a : ℚ) : pyabs a = |a| := by
  unfold pyabs
  split_ifs with h
  · exact (abs_of_neg h).symm
  · exact (abs_of_nonneg (le_of_not_lt h)).symm

theorem pymin_le_left (a b : ℚ) : pymin a b ≤ a := by
  rw [pymin_eq]; exact min_le_left a b

theorem pymin_le_right (a b : ℚ) : pymin a b ≤ b := by
  rw [pymin_eq]; exact min_le_right a b

theorem le_pymin {a b c : ℚ} (h1 : c ≤ a) (h2 : c ≤ b) : c ≤ pymin a b := by
  rw [pymin_eq]; exact le_min h1 h2

theorem pymin_nonneg {a b : ℚ} (h1 : 0 ≤ a) (h2 : 0 ≤ b) : 0 ≤ pymin a b :=
  le_pymin h1 h2

theorem pymin_mono_left {a b : ℚ} (c : ℚ) (h : a ≤ b) : pymin a c ≤ pymin b c := by
  rw [pymin_eq, pymin_eq]; exact min_le_min h le_rfl

theorem pymin_mono_right {a b : ℚ} (c : ℚ) (h : a ≤ b) : pymin c a ≤ pymin c b := by
  rw [pymin_eq, pymin_eq]; exact min_le_min le_rfl h

/-- The eight quality-score contributions are each nonnegative when the
stored strengths are, so the pre-clamp sum is nonnegative. -/
theorem quality_score_nonneg (z : Zone) (recency decay : ℚ)
    (hob : ∀ s, z.orderbook_strength = some s → 0 ≤ s)
    (hvs : ∀ s, z.volume_strength = some s → 0 ≤ s)
    (hr : 0 ≤ recency) (hd : 0 ≤ decay) :
    0 ≤ z.quality_score recency decay := by
  unfold Zone.quality_score
  apply pymin_nonneg (by norm_num)
  have h1 : (0 : ℚ) ≤ pymin ((z.touches : ℚ) * 8) 20 :=
    pymin_nonneg (by positivity) (by norm_num)
  have h2 : (0 : ℚ) ≤
      (if (19/20 : ℚ) < z.stats.confidence then (20 : ℚ)
       else if (9/10 : ℚ) < z.stats.confidence then 10 else 0) := by
    split_ifs <;> norm_num
  have h3 : (0 : ℚ) ≤ (confirmedCount z.confirmed_tf : ℚ) / 3 * 15 := by positivity
  have h4 : (0 : ℚ) ≤
      (match z.orderbook_strength with
       | some s => if s ≠ 0 then pymin (s * 10) 10 else 0
       | none => 0) := by
    rcases hb : z.orderbook_strength with _ | s
    · simp
    · have := hob s hb
      simp only []
      split_ifs <;> [exact pymin_nonneg (by positivity) (by norm_num); norm_num]
  have h5 : (0 : ℚ) ≤
      (match z.volume_strength with
       | some s => if s ≠ 0 then pymin (s * 10) 10 else 0
       | none => 0) := by
    rcases hb : z.volume_strength with _ | s
    · simp
    · have := hvs s hb
      simp only []
      split_ifs <;> [exact pymin_nonneg (by positivity) (by norm_num); norm_num]
  have h8 : (0 : ℚ) ≤
      (if 0 < z.touches then ((z.successful_rejections : ℚ) / (z.touches : ℚ)) * 10 else 0) := by
    split_ifs <;> positivity
  have h6 : (0 : ℚ) ≤ recency * 5 := by positivity
  have h7 : (0 : ℚ) ≤ decay * 5 := by positivity
  linarith

/-- The quality score is clamped above by 100. -/
theorem quality_score_le_100 (z : Zone) (recency decay : ℚ) :
    z.quality_score recency decay ≤ 100 := by
  unfold Zone.quality_score
  exact pymin_le_left _ _

/-! Claim theorems. -/

/-- Claim C1: MarketState.add_candle never raises; a candle failing the
finiteness / OHLC-sanity validation is dropped (with a logged warning) and
the window is unchanged, while a valid candle is stamped and appended to the
bounded window.  The validator is modelled from the spec because
_validate_candle is absent from the repository snapshot. -/
theorem add_candle_drop_or_append (s : MarketState) (c : RawCandle) (tf : TF) (now : ℚ) :
    (validate_candle c = false → (s.add_candle c tf now).candles = s.candles) ∧
    (validate_candle c = true →
      (s.add_candle c tf now).candles =
        pushBounded s.maxCandles s.candles { c with timestamp := some now }) := by
  constructor <;> intro h <;> simp [MarketState.add_candle, h]

/-- Claim C1 witness: on the default market state, the candle with a nan
open field is dropped and a finite consistent candle is appended. -/
theorem add_candle_drop_or_append_witness :
    (MarketState.add_candle {} badCandle 1 0).candles = [] ∧
    (MarketState.add_candle {} goodCandle 1 0).candles =
      pushBounded 500 [] { goodCandle with timestamp := some 0 } := by
  constructor
  · exact (add_candle_drop_or_append {} badCandle 1 0).1 (by norm_num [validate_candle, badCandle, PFloat.val])
  · exact (add_candle_drop_or_append {} goodCandle 1 0).2 (by norm_num [validate_candle, goodCandle, PFloat.val])

/-- Claim C6: a candle window shorter than 7 makes detect_zones return the
empty list, through the early-return branch, with no error. -/
theorem detect_zones_short_window (std : List ℚ → ℚ) (pval : List ℚ → ℚ → ℚ)
    (tol width : ℚ) (min_touches : ℕ) (candles : List OHLC)
    (h : candles.length < 7) :
    detect_zones std pval tol width min_touches candles = [] := by
  simp [detect_zones, h]

/-- Claim C6 witness: the empty window. -/
theorem detect_zones_short_window_witness :
    detect_zones (fun _ => 0) (fun _ _ => 0) (3/1000) (1/2) 3 [] = [] :=
  detect_zones_short_window _ _ _ _ _ [] (by norm_num)

/-- Claim C7: when the ingestion queue already holds QUEUE_CAPACITY
messages, the put_nowait step leaves the queue unchanged and increments the
messages_dropped counter by exactly one; below capacity the message is
appended and the counter is untouched.  The step is a total function, so the
producer is never blocked and no exception escapes it. -/
theorem enqueue_drop_on_full (s : IngestQueue ℕ) (m : ℕ) :
    (QUEUE_CAPACITY ≤ s.queue.length →
      (enqueue_put_nowait s m).queue = s.queue ∧
      (enqueue_put_nowait s m).messages_dropped = s.messages_dropped + 1) ∧
    (s.queue.length < QUEUE_CAPACITY →
      (enqueue_put_nowait s m).queue = s.queue ++ [m] ∧
      (enqueue_put_nowait s m).messages_dropped = s.messages_dropped) := by
  constructor <;> intro h
  · simp [enqueue_put_nowait, Nat.not_lt.2 h]
  · simp [enqueue_put_nowait, h]

/-- Claim C7 witness: a queue filled to capacity drops the incoming message
and counts it. -/
theorem enqueue_drop_on_full_witness :
    (enqueue_put_nowait ⟨List.replicate QUEUE_CAPACITY 0, 5⟩ 7).queue =
      List.replicate QUEUE_CAPACITY 0 ∧
    (enqueue_put_nowait ⟨List.replicate QUEUE_CAPACITY 0, 5⟩ 7).messages_dropped = 6 :=
  (enqueue_drop_on_full ⟨List.replicate QUEUE_CAPACITY 0, 5⟩ 7).1 (by simp)

/-- Claim C8: the position size is the product of the risk base, twice the
confidence, the quality fraction and the timeframe multiplier, capped at
three times the risk base; at risk 0.02, confidence 0.9, quality 80 and no
confirmed timeframe it is 0.0288, below the 0.06 cap. -/
theorem calculate_position_size_formula :
    (∀ (sig : TradingSignal) (account_risk recency decay : ℚ),
      sig.calculate_position_size account_risk recency decay =
        pymin (account_risk * (sig.confidence * 2) *
            (sig.zone.quality_score recency decay / 100) *
            (if anyConfirmed sig.zone.confirmed_tf then 3/2 else 1))
          (3 * account_risk)) ∧
    Zone.quality_score c8Zone 1 1 = 80 ∧
    TradingSignal.calculate_position_size ⟨c8Zone, .rejection, 9/10, 0⟩ (2/100) 1 1 = 288/10000 ∧
    (288/10000 : ℚ) < 3 * (2/100) := by
  refine ⟨fun sig account_risk recency decay => ?_, ?_, ?_, by norm_num⟩
  · unfold TradingSignal.calculate_position_size
    rw [mul_comm account_risk 3]
  · norm_num [Zone.quality_score, c8Zone, pymin, confirmedCount]
  · norm_num [TradingSignal.calculate_position_size, Zone.quality_score, c8Zone,
      pymin, confirmedCount, anyConfirmed]

/-- update_touch changes no field that the detector invariants read except
the touch lists and the counter, which move in lockstep. -/
theorem update_touch_fields (std : List ℚ → ℚ) (z : Zone) (price time : ℚ) :
    (z.update_touch std price time).zone_type = z.zone_type ∧
    (z.update_touch std price time).center = z.center ∧
    (z.update_touch std price time).zone_low = z.zone_low ∧
    (z.update_touch std price time).zone_high = z.zone_high ∧
    (z.update_touch std price time).touches = z.touches + 1 ∧
    (z.update_touch std price time).touch_prices = z.touch_prices ++ [price] ∧
    (z.update_touch std price time).touch_times = z.touch_times ++ [time] := by
  unfold Zone.update_touch
  refine ⟨rfl, rfl, rfl, rfl, rfl, rfl, rfl⟩

/-- Zones reached by _add_or_update_zone all satisfy a predicate that holds
of the incoming zones, is established by zone creation at this pivot, and is
preserved by accreting this touch. -/
theorem mem_add_or_update_zone {P : Zone → Prop} (std : List ℚ → ℚ)
    (width : ℚ) (zones : List Zone) (ztype : ZoneType) (price tol ts : ℚ)
    (hzones : ∀ z ∈ zones, P z)
    (hnew : P (mkZone ztype price width ts))
    (hupd : ∀ z, P z → P (z.update_touch std price ts)) :
    ∀ z ∈ add_or_update_zone std width zones ztype price tol ts, P z := by
  induction zones with
  | nil => simpa [add_or_update_zone] using hnew
  | cons a rest ih =>
      intro z hz
      simp only [add_or_update_zone] at hz
      split_ifs at hz with hmatch
      · rcases List.mem_cons.1 hz with rfl | hz
        · exact hupd a (hzones a (List.mem_cons_self a rest))
        · exact hzones z (List.mem_cons_of_mem a hz)
      · rcases List.mem_cons.1 hz with rfl | hz
        · exact hzones z (List.mem_cons_self z rest)
        · exact ih (fun w hw => hzones w (List.mem_cons_of_mem a hw)) z hz

/-- Zones produced by one pivot-scan step all satisfy a predicate that holds
of the incoming zones, is established by zone creation at the low or the
high of any window candle, and is preserved by accreting such a touch. -/
theorem mem_pivot_step {P : Zone → Prop} (std : List ℚ → ℚ) (tol width : ℚ)
    (candles : List OHLC) (zones : List Zone) (i : ℕ)
    (hzones : ∀ z ∈ zones, P z)
    (hnew : ∀ (zt : ZoneType), ∀ c ∈ candles,
      P (mkZone zt c.low width c.ts) ∧ P (mkZone zt c.high width c.ts))
    (hupd : ∀ z, P z → ∀ c ∈ candles,
      P (z.update_touch std c.low c.ts) ∧ P (z.update_touch std c.high c.ts)) :
    ∀ z ∈ pivot_step std tol width candles zones i, P z := by
  unfold pivot_step
  split_ifs with hrange
  · dsimp only
    have hi : i < candles.length := by omega
    have hmem : candles.getD i default ∈ candles := by
      rw [List.getD_eq_getElem candles default hi]
      exact List.getElem_mem hi
    set c := candles.getD i default with hc
    split_ifs <;>
      first
      | exact mem_add_or_update_zone _ _ _ _ _ _ _
          (mem_add_or_update_zone _ _ _ _ _ _ _ hzones ((hnew .support c hmem).1)
            (fun z hz => (hupd z hz c hmem).1))
          ((hnew .resistance c hmem).2) (fun z hz => (hupd z hz c hmem).2)
      | exact mem_add_or_update_zone _ _ _ _ _ _ _ hzones ((hnew .resistance c hmem).2)
          (fun z hz => (hupd z hz c hmem).2)
      | exact mem_add_or_update_zone _ _ _ _ _ _ _ hzones ((hnew .support c hmem).1)
          (fun z hz => (hupd z hz c hmem).1)
      | exact hzones
  · exact hzones

/-- Zones produced by the whole pivot scan all satisfy a predicate that is
established by zone creation at the low or the high of any window candle and
preserved by accreting such touches. -/
theorem mem_pivot_scan {P : Zone → Prop} (std : List ℚ → ℚ) (tol width : ℚ)
    (candles : List OHLC)
    (hnew : ∀ (zt : ZoneType), ∀ c ∈ candles,
      P (mkZone zt c.low width c.ts) ∧ P (mkZone zt c.high width c.ts))
    (hupd : ∀ z, P z → ∀ c ∈ candles,
      P (z.update_touch std c.low c.ts) ∧ P (z.update_touch std c.high c.ts)) :
    ∀ z ∈ pivot_scan std tol width candles, P z := by
  unfold pivot_scan
  have haux : ∀ (l : List ℕ) (init : List Zone), (∀ z ∈ init, P z) →
      ∀ z ∈ l.foldl (pivot_step std tol width candles) init, P z := by
    intro l
    induction l with
    | nil => intro init h; simpa using h
    | cons a t ih =>
        intro init h
        exact ih _ (mem_pivot_step std tol width candles init a h hnew hupd)
  exact haux _ [] (by simp)

/-- The statistical-validation stage only rewrites the statistics block and
filters: every output zone shares all non-stats fields with an input zone. -/
theorem mem_statistical_validation (pval : List ℚ → ℚ → ℚ) (zones : List Zone)
    (candles : List OHLC) :
    ∀ z' ∈ statistical_validation pval zones candles, ∃ z ∈ zones,
      z'.zone_type = z.zone_type ∧ z'.center = z.center ∧
      z'.zone_low = z.zone_low ∧ z'.zone_high = z.zone_high ∧
      z'.touches = z.touches ∧ z'.touch_prices = z.touch_prices ∧
      z'.touch_times = z.touch_times := by
  intro z' hz'
  unfold statistical_validation at hz'
  split_ifs at hz' with hskip
  · exact ⟨z', hz', rfl, rfl, rfl, rfl, rfl, rfl, rfl⟩
  · rcases List.mem_filter.1 hz' with ⟨hmap, _⟩
    rcases List.mem_map.1 hmap with ⟨z, hz, rfl⟩
    refine ⟨z, hz, ?_⟩
    unfold set_zone_stats
    split_ifs <;> exact ⟨rfl, rfl, rfl, rfl, rfl, rfl, rfl⟩

/-- Structural zone invariant claimed by the spec data model. -/
def ZoneWff (z : Zone) : Prop :=
  z.zone_low ≤ z.center ∧ z.center ≤ z.zone_high ∧
  z.touches = z.touch_prices.length ∧ z.touches = z.touch_times.length

/-- Claim C9: with a nonnegative width multiplier and nonnegative candle
prices, every zone returned by detect_zones is well-formed: its band
contains its center and the touch counter equals the length of both touch
lists; creation establishes the invariant and update_touch preserves it. -/
theorem detect_zones_zones_wellformed (std : List ℚ → ℚ) (pval : List ℚ → ℚ → ℚ)
    (tol width : ℚ) (min_touches : ℕ) (candles : List OHLC)
    (hw : 0 ≤ width)
    (hc : ∀ c ∈ candles, 0 ≤ c.low ∧ 0 ≤ c.high) :
    ∀ z ∈ detect_zones std pval tol width min_touches candles, ZoneWff z := by
  intro z hz
  unfold detect_zones at hz
  split_ifs at hz with hshort
  · simp at hz
  · have hscan : ∀ w ∈ pivot_scan std tol width candles, ZoneWff w := by
      apply mem_pivot_scan
      · intro zt c hcm
        have hlow := (hc c hcm).1
        have hhigh := (hc c hcm).2
        constructor <;>
          · refine ⟨?_, ?_, by simp [mkZone], by simp [mkZone]⟩ <;>
              simp only [mkZone] <;> nlinarith
      · intro z hz c hcm
        have hfl := update_touch_fields std z c.low c.ts
        have hfh := update_touch_fields std z c.high c.ts
        obtain ⟨w1, w2, w3, w4⟩ := hz
        constructor
        · exact ⟨by rw [hfl.2.2.1]; exact w1, by rw [hfl.2.1, hfl.2.2.2.1]; exact w2,
            by rw [hfl.2.2.2.2.1, hfl.2.2.2.2.2.1]; simp [w3],
            by rw [hfl.2.2.2.2.1, hfl.2.2.2.2.2.2]; simp [w4]⟩
        · exact ⟨by rw [hfh.2.2.1]; exact w1, by rw [hfh.2.1, hfh.2.2.2.1]; exact w2,
            by rw [hfh.2.2.2.2.1, hfh.2.2.2.2.2.1]; simp [w3],
            by rw [hfh.2.2.2.2.1, hfh.2.2.2.2.2.2]; simp [w4]⟩
    rcases mem_statistical_validation pval _ candles z hz with
      ⟨w, hwmem, e1, e2, e3, e4, e5, e6, e7⟩
    rcases List.mem_filter.1 hwmem with ⟨hwscan, _⟩
    obtain ⟨w1, w2, w3, w4⟩ := hscan w hwscan
    exact ⟨by rw [e3, e2]; exact w1, by rw [e2, e4]; exact w2,
      by rw [e5, e6]; exact w3, by rw [e5, e7]; exact w4⟩

/-- Claim C9 witness: the single zone detected on the seven-candle sample is
well-formed. -/
theorem detect_zones_zones_wellformed_witness :
    ZoneWff (mkZone ZoneType.support 100 (1/2) 3) :=
  detect_zones_zones_wellformed (fun _ => 0) (fun _ _ => 0) (3/1000) (1/2) 1 c9Candles
    (by norm_num)
    (by intro c hc; fin_cases hc <;> norm_num [mkOHLC])
    (mkZone ZoneType.support 100 (1/2) 3)
    (by norm_num [detect_zones, pivot_scan, pivot_step, add_or_update_zone, mkZone,
      Zone.update_touch, listMin, listMax, listMean, pymin, pymax, pyabs,
      statistical_validation, set_zone_stats, c9Candles, mkOHLC, List.range_succ])

set_option maxHeartbeats 4000000 in
/-- Claim C2 counterexample: two successive detection passes over the same
capacity-19 market state, six candles arriving in between.  The first pass
returns one support zone at center 100 with touch times 3, 9 and 15.  The
later pass sees pivot prices 100 again (exactly matching that center), yet
its zone carries touch times 9, 15 and 21 only: the touch recorded at time 3
was not carried forward, because detect_zones rebuilds the zone list from
scratch and the candle behind that touch was evicted. -/
theorem detect_zones_history_not_carried :
    ((detect_zones (fun _ => 0) (fun _ _ => 0) (3/1000) (1/2) 3 c2Window1).map
        (fun z => z.touch_times) = [[3, 9, 15]]) ∧
    ((detect_zones (fun _ => 0) (fun _ _ => 0) (3/1000) (1/2) 3 c2Window2).map
        (fun z => z.touch_times) = [[9, 15, 21]]) ∧
    (∀ z ∈ detect_zones (fun _ => 0) (fun _ _ => 0) (3/1000) (1/2) 3 c2Window2,
      z.center = 100 ∧ ¬ (3 : ℚ) ∈ z.touch_times) := by
  refine ⟨?_, ?_, ?_⟩
  · norm_num [detect_zones, pivot_scan, pivot_step, add_or_update_zone, mkZone,
      Zone.update_touch, listMin, listMax, listMean, pymin, pymax, pyabs,
      statistical_validation, set_zone_stats, c2Window1, c2Stream, mkOHLC,
      List.range_succ, pushBounded]
  · norm_num [detect_zones, pivot_scan, pivot_step, add_or_update_zone, mkZone,
      Zone.update_touch, listMin, listMax, listMean, pymin, pymax, pyabs,
      statistical_validation, set_zone_stats, c2Window2, c2Stream, mkOHLC,
      List.range_succ, pushBounded]
  · norm_num [detect_zones, pivot_scan, pivot_step, add_or_update_zone, mkZone,
      Zone.update_touch, listMin, listMax, listMean, pymin, pymax, pyabs,
      statistical_validation, set_zone_stats, c2Window2, c2Stream, mkOHLC,
      List.range_succ, pushBounded]

/-- Claim C2 amended: each detection pass rebuilds its zones solely from the
current candle window; every touch time of every returned zone is the
timestamp of a candle still in the window, so history attached to evicted
candles, and any state accumulated on zones of an earlier pass, is not
carried forward. -/
theorem detect_zones_touch_times_from_window (std : List ℚ → ℚ)
    (pval : List ℚ → ℚ → ℚ) (tol width : ℚ) (min_touches : ℕ)
    (candles : List OHLC) :
    ∀ z ∈ detect_zones std pval tol width min_touches candles,
      ∀ t ∈ z.touch_times, ∃ c ∈ candles, c.ts = t := by
  intro z hz
  unfold detect_zones at hz
  split_ifs at hz with hshort
  · simp at hz
  · have hscan : ∀ w ∈ pivot_scan std tol width candles,
        ∀ t ∈ w.touch_times, ∃ c ∈ candles, c.ts = t := by
      apply mem_pivot_scan
      · intro zt c hcm
        constructor <;>
          · intro t ht
            simp only [mkZone, List.mem_singleton] at ht
            exact ⟨c, hcm, ht.symm⟩
      · intro w hw c hcm
        have hfl := update_touch_fields std w c.low c.ts
        have hfh := update_touch_fields std w c.high c.ts
        constructor
        · intro t ht
          rw [hfl.2.2.2.2.2.2] at ht
          rcases List.mem_append.1 ht with ht | ht
          · exact hw t ht
          · exact ⟨c, hcm, (List.mem_singleton.1 ht).symm⟩
        · intro t ht
          rw [hfh.2.2.2.2.2.2] at ht
          rcases List.mem_append.1 ht with ht | ht
          · exact hw t ht
          · exact ⟨c, hcm, (List.mem_singleton.1 ht).symm⟩
    rcases mem_statistical_validation pval _ candles z hz with
      ⟨w, hwmem, _, _, _, _, _, _, e7⟩
    rcases List.mem_filter.1 hwmem with ⟨hwscan, _⟩
    intro t ht
    rw [e7] at ht
    exact hscan w hwscan t ht

/-- The zone returned by the detection pass over the evicted window. -/
def c2OutZone : Zone :=
  { zone_type := .support, center := 100, zone_low := 199/2, zone_high := 201/2,
    touches := 3, touch_prices := [100, 100, 100], touch_times := [9, 15, 21],
    stats := { last_touch := 21 } }

set_option maxHeartbeats 4000000 in
/-- Claim C2 amended witness: the touch time 9 of the zone returned on the
evicted window is the timestamp of a candle still in that window. -/
theorem detect_zones_touch_times_from_window_witness :
    ∃ c ∈ c2Window2, c.ts = 9 :=
  detect_zones_touch_times_from_window (fun _ => 0) (fun _ _ => 0) (3/1000) (1/2) 3
    c2Window2 c2OutZone
    (by norm_num [detect_zones, pivot_scan, pivot_step, add_or_update_zone, mkZone,
      Zone.update_touch, listMin, listMax, listMean, pymin, pymax, pyabs,
      statistical_validation, set_zone_stats, c2Window2, c2Stream, mkOHLC,
      List.range_succ, pushBounded, c2OutZone])
    9 (by norm_num [c2OutZone])

/-- Claim C3 counterexample: with one successful rejection recorded and all
other fields held fixed, raising touches from 3 to 4 strictly lowers the
quality score (the win-rate term decays faster than the saturated touches
term grows), so the score is not monotone in touches. -/
theorem quality_score_not_monotone_in_touches :
    Zone.quality_score { c3Zone with touches := 4 } 0 0 <
      Zone.quality_score c3Zone 0 0 := by
  norm_num [Zone.quality_score, c3Zone, pymin, confirmedCount]

/-- Claim C3 amended: the quality score always lies in [0, 100] when the
stored strengths and the read-time recency and decay factors are
nonnegative; and it is non-decreasing in the touches count (all other fields
fixed) provided no successful rejections are recorded — with a positive
successful_rejections count the win-rate term can make it decrease. -/
theorem quality_score_range_and_monotone (z : Zone) (recency decay : ℚ)
    (hob : ∀ s, z.orderbook_strength = some s → 0 ≤ s)
    (hvs : ∀ s, z.volume_strength = some s → 0 ≤ s)
    (hr : 0 ≤ recency) (hd : 0 ≤ decay) :
    (0 ≤ z.quality_score recency decay ∧ z.quality_score recency decay ≤ 100) ∧
    (z.successful_rejections = 0 → ∀ t' : ℕ, z.touches ≤ t' →
      z.quality_score recency decay ≤
        Zone.quality_score { z with touches := t' } recency decay) := by
  refine ⟨⟨quality_score_nonneg z recency decay hob hvs hr hd,
    quality_score_le_100 z recency decay⟩, ?_⟩
  intro hsr t' ht'
  unfold Zone.quality_score
  apply pymin_mono_right
  have e8 : ∀ n : ℕ,
      (if 0 < n then ((z.successful_rejections : ℚ) / (n : ℚ)) * 10 else 0) = 0 := by
    intro n
    rw [hsr]
    split_ifs <;> simp
  have e1 : pymin ((z.touches : ℚ) * 8) 20 ≤ pymin ((t' : ℚ) * 8) 20 := by
    apply pymin_mono_left
    have : (z.touches : ℚ) ≤ (t' : ℚ) := by exact_mod_cast ht'
    linarith
  simp only [e8]
  linarith [e1]

/-- Claim C3 amended witness: the bounds and the monotone step from 3 to 4
touches on the counterexample zone with its rejection count zeroed out. -/
theorem quality_score_range_and_monotone_witness :
    (0 ≤ Zone.quality_score { c3Zone with successful_rejections := 0 } 0 0 ∧
      Zone.quality_score { c3Zone with successful_rejections := 0 } 0 0 ≤ 100) ∧
    Zone.quality_score { c3Zone with successful_rejections := 0 } 0 0 ≤
      Zone.quality_score
        { { c3Zone with successful_rejections := 0 } with touches := 4 } 0 0 := by
  have h := quality_score_range_and_monotone
    { c3Zone with successful_rejections := 0 } 0 0
    (by intro s hs; simp [c3Zone] at hs) (by intro s hs; simp [c3Zone] at hs)
    le_rfl le_rfl
  exact ⟨h.1, h.2 rfl 4 (by norm_num [c3Zone])⟩

/-- Claim C5 counterexample: the clustering tolerance check divides by the
incoming price, not by the first price.  With tolerance 0.003 (the config
default) and prices 1000 then 997, the claimed premise holds (the gap over
the first price is exactly the tolerance), yet feeding both into an empty
registry leaves two zones of one touch each instead of one zone with two
touches. -/
theorem add_or_update_zone_tolerance_mismatch :
    (pyabs ((1000 : ℚ) - 997) / 1000 ≤ 3/1000) ∧
    ((add_or_update_zone (fun _ => 0) (1/2)
        (add_or_update_zone (fun _ => 0) (1/2) [] .support 1000 (3/1000) 0)
        .support 997 (3/1000) 1).map (fun z => z.touches) = [1, 1]) := by
  constructor
  · norm_num [pyabs]
  · norm_num [add_or_update_zone, mkZone, Zone.update_touch, pyabs, pymin, pymax]

/-- Claim C5 amended: with the gap normalized by the incoming price (as the
code computes it), feeding p1 then p2 of the same type into an empty
registry yields exactly one zone with two touches centered at p1, and a
third same-type price outside the tolerance of that center (again relative
to the incoming price) yields exactly two zones. -/
theorem add_or_update_zone_clusters (std : List ℚ → ℚ) (width tol : ℚ)
    (p1 p2 p3 t1 t2 t3 : ℚ)
    (h2 : pyabs (p1 - p2) / p2 ≤ tol)
    (h3 : ¬ pyabs (p1 - p3) / p3 ≤ tol) :
    ((add_or_update_zone std width
        (add_or_update_zone std width [] .support p1 tol t1)
        .support p2 tol t2).map (fun z => (z.touches, z.center)) = [(2, p1)]) ∧
    (add_or_update_zone std width
        (add_or_update_zone std width
          (add_or_update_zone std width [] .support p1 tol t1)
          .support p2 tol t2)
        .support p3 tol t3).length = 2 := by
  have e1 : add_or_update_zone std width [] ZoneType.support p1 tol t1 =
      [mkZone .support p1 width t1] := rfl
  have hm : (mkZone ZoneType.support p1 width t1).center = p1 := rfl
  have e2 : add_or_update_zone std width [mkZone .support p1 width t1]
      ZoneType.support p2 tol t2 =
      [(mkZone .support p1 width t1).update_touch std p2 t2] := by
    unfold add_or_update_zone
    rw [if_pos ⟨rfl, by rw [hm]; exact h2⟩]
  have hf := update_touch_fields std (mkZone .support p1 width t1) p2 t2
  rw [e1, e2]
  constructor
  · simp only [List.map_cons, List.map_nil, hf.2.2.2.2.1, hf.2.1, hm]
    norm_num [mkZone]
  · unfold add_or_update_zone
    rw [if_neg]
    · rfl
    · rintro ⟨-, habs⟩
      rw [hf.2.1, hm] at habs
      exact h3 habs

/-- Claim C5 amended witness: prices 1000, 1001 (inside tolerance relative
to the incoming price) and 2000 (outside). -/
theorem add_or_update_zone_clusters_witness :
    ((add_or_update_zone (fun _ => 0) (1/2)
        (add_or_update_zone (fun _ => 0) (1/2) [] .support 1000 (3/1000) 0)
        .support 1001 (3/1000) 1).map (fun z => (z.touches, z.center)) =
      [(2, 1000)]) ∧
    (add_or_update_zone (fun _ => 0) (1/2)
        (add_or_update_zone (fun _ => 0) (1/2)
          (add_or_update_zone (fun _ => 0) (1/2) [] .support 1000 (3/1000) 0)
          .support 1001 (3/1000) 1)
        .support 2000 (3/1000) 2).length = 2 :=
  add_or_update_zone_clusters (fun _ => 0) (1/2) (3/1000) 1000 1001 2000 0 1 2
    (by norm_num [pyabs]) (by norm_num [pyabs])

/-- confirm_with_orderbook either stores the computed strength (when it
exceeds 0.3) or leaves the zone untouched. -/
theorem confirm_with_orderbook_cases (z : Zone) (ob : Option OrderBook) :
    (3/10 < (confirm_with_orderbook z ob).2 ∧
      (confirm_with_orderbook z ob).1 =
        { z with orderbook_strength := some (confirm_with_orderbook z ob).2 }) ∨
    (¬ 3/10 < (confirm_with_orderbook z ob).2 ∧ (confirm_with_orderbook z ob).1 = z) := by
  rcases ob with _ | o
  · right
    refine ⟨by norm_num [confirm_with_orderbook], rfl⟩
  · unfold confirm_with_orderbook
    dsimp only
    split_ifs with h1 h2 h3
    · left; exact ⟨h2, rfl⟩
    · right; exact ⟨h2, rfl⟩
    · left; exact ⟨h3, rfl⟩
    · right; exact ⟨h3, rfl⟩

/-- confirm_with_volume either stores the computed strength (when it exceeds
0.3) or leaves the zone untouched. -/
theorem confirm_with_volume_cases (z : Zone) (cs : List OHLC) :
    (3/10 < (confirm_with_volume z cs).2 ∧
      (confirm_with_volume z cs).1 =
        { z with volume_strength := some (confirm_with_volume z cs).2 }) ∨
    (¬ 3/10 < (confirm_with_volume z cs).2 ∧ (confirm_with_volume z cs).1 = z) := by
  unfold confirm_with_volume
  dsimp only
  split_ifs with h1 h2 h3
  · right; exact ⟨by norm_num, rfl⟩
  · right; exact ⟨by norm_num, rfl⟩
  · left; exact ⟨h3, rfl⟩
  · right; exact ⟨h3, rfl⟩

/-- Claim C4 counterexample: the order book of c4Book has no liquidity
inside the band of c4Zone, so the computed strength is 0 and the
ConfirmationSystem call leaves the field unset; but the confirmation pass of
SymbolAnalyzer._analyze_timeframe assigns the returned strength
unconditionally, so after the pass the field holds the value 0 even though
the strength does not exceed 0.3 — the claimed equivalence between a stored
value and a strength above 0.3 fails, and the stored 0 is exactly the
measured zero the claim says stays distinguishable. -/
theorem analyzer_pass_stores_subthreshold_value :
    (confirm_with_orderbook c4Zone (some c4Book)).2 = 0 ∧
    ¬ (3/10 : ℚ) < (confirm_with_orderbook c4Zone (some c4Book)).2 ∧
    (confirm_with_orderbook c4Zone (some c4Book)).1.orderbook_strength = none ∧
    (analyzer_confirm_pass c4Zone (some c4Book) []).orderbook_strength = some 0 := by
  have hs : (confirm_with_orderbook c4Zone (some c4Book)).2 = 0 := by
    norm_num [confirm_with_orderbook, c4Zone, c4Book, pymin, pymax]
  refine ⟨hs, by rw [hs]; norm_num, ?_, ?_⟩
  · rcases confirm_with_orderbook_cases c4Zone (some c4Book) with ⟨h, _⟩ | ⟨_, he⟩
    · rw [hs] at h; norm_num at h
    · rw [he]; rfl
  · have hdef : (analyzer_confirm_pass c4Zone (some c4Book) []).orderbook_strength =
        some ((confirm_with_orderbook c4Zone (some c4Book)).2) := rfl
    rw [hdef, hs]

/-- Claim C4 amended: within ConfirmationSystem itself the claim holds — on
a zone whose strength fields are unset, confirm_with_orderbook and
confirm_with_volume leave the field holding a value exactly when the
computed strength exceeds 0.3, and otherwise it stays None, distinguishable
from a stored zero.  The unconditional re-assignment in the analyzer pass
(see the counterexample) is what breaks the property at the pass level. -/
theorem confirm_sets_field_iff_above_threshold (z : Zone) (ob : Option OrderBook)
    (cs : List OHLC)
    (hob : z.orderbook_strength = none) (hvs : z.volume_strength = none) :
    ((confirm_with_orderbook z ob).1.orderbook_strength =
      if 3/10 < (confirm_with_orderbook z ob).2 then
        some (confirm_with_orderbook z ob).2 else none) ∧
    ((confirm_with_volume z cs).1.volume_strength =
      if 3/10 < (confirm_with_volume z cs).2 then
        some (confirm_with_volume z cs).2 else none) := by
  constructor
  · rcases confirm_with_orderbook_cases z ob with ⟨h, he⟩ | ⟨h, he⟩
    · rw [he, if_pos h]
    · rw [he, if_neg h]; exact hob
  · rcases confirm_with_volume_cases z cs with ⟨h, he⟩ | ⟨h, he⟩
    · rw [he, if_pos h]
    · rw [he, if_neg h]; exact hvs

/-- Claim C4 amended witness: the sample zone with unset fields, the sample
book and an empty candle list. -/
theorem confirm_sets_field_iff_above_threshold_witness :
    ((confirm_with_orderbook c4Zone (some c4Book)).1.orderbook_strength =
      if 3/10 < (confirm_with_orderbook c4Zone (some c4Book)).2 then
        some (confirm_with_orderbook c4Zone (some c4Book)).2 else none) ∧
    ((confirm_with_volume c4Zone []).1.volume_strength =
      if 3/10 < (confirm_with_volume c4Zone []).2 then
        some (confirm_with_volume c4Zone []).2 else none) :=
  confirm_sets_field_iff_above_threshold c4Zone (some c4Book) [] rfl rfl

/-- The pre-clamp bounce confidence terms are each nonnegative when the
stored strengths and read-time factors are. -/
theorem bounce_confidence_ge_half (z : Zone) (recency decay : ℚ)
    (hob : ∀ s, z.orderbook_strength = some s → 0 ≤ s)
    (hvs : ∀ s, z.volume_strength = some s → 0 ≤ s)
    (hr : 0 ≤ recency) (hd : 0 ≤ decay) :
    1/2 ≤ calculate_bounce_confidence z recency decay := by
  unfold calculate_bounce_confidence
  apply le_pymin ?_ (by norm_num)
  have h1 : (0 : ℚ) ≤
      (match z.volume_strength with
       | some s => if s ≠ 0 then s * (2/10) else 0
       | none => 0) := by
    rcases hb : z.volume_strength with _ | s
    · simp
    · have := hvs s hb
      simp only []
      split_ifs <;> positivity
  have h2 : (0 : ℚ) ≤
      (match z.orderbook_strength with
       | some s => if s ≠ 0 then s * (15/100) else 0
       | none => 0) := by
    rcases hb : z.orderbook_strength with _ | s
    · simp
    · have := hob s hb
      simp only []
      split_ifs <;> positivity
  have h3 : (0 : ℚ) ≤ (if anyConfirmed z.confirmed_tf then (15/100 : ℚ) else 0) := by
    split_ifs <;> norm_num
  have h4 : (0 : ℚ) ≤ z.quality_score recency decay / 100 * (1/10) := by
    have := quality_score_nonneg z recency decay hob hvs hr hd
    positivity
  linarith

/-- Claim C10: the bounce confidence always lies in [1/2, 1] when the stored
strengths and read-time factors are nonnegative; consequently, whenever the
last three candles exhibit the touch-and-bounce pattern on the zone side, a
configured minimum confidence of at most 1/2 never filters the candidate:
_check_bounce emits the rejection signal. -/
theorem bounce_confidence_bounds (z : Zone) (recency decay minc : ℚ)
    (hob : ∀ s, z.orderbook_strength = some s → 0 ≤ s)
    (hvs : ∀ s, z.volume_strength = some s → 0 ≤ s)
    (hr : 0 ≤ recency) (hd : 0 ≤ decay) (hmc : minc ≤ 1/2) :
    (1/2 ≤ calculate_bounce_confidence z recency decay ∧
      calculate_bounce_confidence z recency decay ≤ 1) ∧
    (∀ (price now : ℚ) (candles : List OHLC), 2 ≤ candles.length →
      bounce_candidate z candles = true →
      (check_bounce minc z price candles recency decay now).isSome = true) := by
  have hlow := bounce_confidence_ge_half z recency decay hob hvs hr hd
  have hhigh : calculate_bounce_confidence z recency decay ≤ 1 := by
    unfold calculate_bounce_confidence
    exact pymin_le_right _ _
  have hconf : minc ≤ calculate_bounce_confidence z recency decay :=
    le_trans hmc hlow
  refine ⟨⟨hlow, hhigh⟩, ?_⟩
  intro price now candles hlen hcand
  unfold bounce_candidate at hcand
  unfold check_bounce
  have hlen2 : ¬ (candles.drop (candles.length - 3)).length < 2 := by
    rw [List.length_drop]; omega
  rw [if_neg hlen2]
  cases hzt : z.zone_type
  · rw [hzt] at hcand
    dsimp only at hcand ⊢
    rw [hcand, if_pos rfl, if_pos hconf]
    rfl
  · rw [hzt] at hcand
    dsimp only at hcand ⊢
    rw [hcand, if_pos rfl, if_pos hconf]
    rfl

/-- Claim C10 witness: the sample zone touched and bounced by the
three-candle sample at minimum confidence 1/2. -/
theorem bounce_confidence_bounds_witness :
    (1/2 ≤ calculate_bounce_confidence c4Zone 0 0 ∧
      calculate_bounce_confidence c4Zone 0 0 ≤ 1) ∧
    (check_bounce (1/2) c4Zone 0 c10Candles 0 0 0).isSome = true := by
  have h := bounce_confidence_bounds c4Zone 0 0 (1/2)
    (by intro s hs; simp [c4Zone] at hs) (by intro s hs; simp [c4Zone] at hs)
    le_rfl le_rfl le_rfl
  exact ⟨h.1, h.2 0 0 c10Candles (by norm_num [c10Candles])
    (by norm_num [bounce_candidate, c4Zone, c10Candles, List.getLastD])⟩

end RSZ
